import Mathlib

/-!
Verification of the production-planning backend (Mine / Product / Partner /
Production models plus their repository and service layers).

The development shallowly embeds the Python/SQLAlchemy source:

* `app/models/production.py` — `Production`, `ProductionPartnerEnrollment`,
  the `@validates("status")` single-ACTIVE-per-year validator, and both
  `to_dict` serializers with their derived tonnage fields;
* `app/models/product.py` — `Mine` and `Product` table constraints;
* `app/mine/repository/mine_repository.py` — soft delete / restore and the
  `_apply_filter` listing filter;
* `app/lib/repository/base.py` and `app/mine/services/mine_service.py` —
  the commit / rollback discipline of the write operations.

Python integers are modelled by `Int`, nullable columns by `Option Int`
(or `Option String`), timestamps by `Int` (only their ordering matters),
and Python float division by exact division on `ℚ`.  Python truthiness of
`x or d` on an optional integer is modelled by `pyOrInt` (both `None` and
`0` select the fallback), while `x if x is not None else d` is
`Option.getD`.  Raised exceptions are modelled by `Except` / explicit
error outcomes.
-/

namespace ProjectSpec

/-- Python `x or d` for an optional integer: `None` and `0` are falsy. -/
def pyOrInt (x : Option Int) (d : Int) : Int :=
  match x with
  | none => d
  | some n => if n = 0 then d else n

/-- Python truthiness of an optional string: `None` and `""` are falsy
(`if flt.name:` in `_apply_filter`). -/
def pyTruthyStr (x : Option String) : Bool :=
  match x with
  | none => false
  | some s => !(s = "")

/-! ## Production / ProductionPartnerEnrollment (app/models/production.py) -/

/-- The `ProductionStatus` enum of `production.py`. -/
inductive ProductionStatus
  | draft
  | planned
  | active
  | completed
  | archived
deriving DecidableEq, Repr

/-- The fields of a `productions` row that the status validator reads:
`id`, `contractual_year` and `status`. -/
structure ProductionRow where
  id : Nat
  contractualYear : Int
  status : ProductionStatus
deriving DecidableEq, Repr

/-- A `production_partner_enrollment` row.  Columns that are nullable, or
that the Python code defends against being `None` (the `calculated_vld_*`
columns have server defaults but the in-memory attribute can be unset),
are `Option Int`. -/
structure Enrollment where
  production_id : Nat
  partner_id : Nat
  vessel_size_t : Int
  minimum_tonnage : Int
  adjusted_tonnage : Option Int
  manual_incentive_tonnage : Option Int
  calculated_incentive_tonnage : Option Int
  calculated_vld_count : Option Int
  calculated_vld_total_tonnage : Option Int
  vld_tonnage_variance : Option Int
deriving DecidableEq, Repr

/-- The `incentive_tonnage` property of `ProductionPartnerEnrollment`:
`manual if manual is not None else (calculated or 0)`. -/
def Enrollment.incentive_tonnage (e : Enrollment) : Int :=
  match e.manual_incentive_tonnage with
  | some m => m
  | none => pyOrInt e.calculated_incentive_tonnage 0

/-- The derived fields that `ProductionPartnerEnrollment.to_dict` adds to
the serialized dictionary. -/
structure EnrollmentDict where
  vessel_size_t : Int
  minimum_tonnage : Int
  adjusted_tonnage : Option Int
  incentive_tonnage : Int
  planned_tonnage : Int
  vld_count : Int
  vld_total_tonnage : Int
  vld_tonnage_variance : Int
deriving DecidableEq, Repr

/-- `ProductionPartnerEnrollment.to_dict` (production.py, lines 443-496):
incentive chosen with manual priority, planned tonnage from the adjusted
override or `minimum + incentive`, actuals defended with `or 0`, and the
variance taken from the stored field when it `is not None`, else
recomputed as `actual - planned`. -/
def Enrollment.toDict (e : Enrollment) : EnrollmentDict :=
  let incentive :=
    match e.manual_incentive_tonnage with
    | some m => m
    | none => pyOrInt e.calculated_incentive_tonnage 0
  let planned := e.adjusted_tonnage.getD (e.minimum_tonnage + incentive)
  let actual_vld_count := pyOrInt e.calculated_vld_count 0
  let actual_vld_tonnage := pyOrInt e.calculated_vld_total_tonnage 0
  let variance := e.vld_tonnage_variance.getD (actual_vld_tonnage - planned)
  { vessel_size_t := e.vessel_size_t
    minimum_tonnage := e.minimum_tonnage
    adjusted_tonnage := e.adjusted_tonnage
    incentive_tonnage := incentive
    planned_tonnage := planned
    vld_count := actual_vld_count
    vld_total_tonnage := actual_vld_tonnage
    vld_tonnage_variance := variance }

/-- The local helper `planned_tonnage_for` of `Production.to_dict`
(production.py, lines 291-293). -/
def plannedTonnageFor (e : Enrollment) : Int :=
  let incentive :=
    match e.manual_incentive_tonnage with
    | some m => m
    | none => pyOrInt e.calculated_incentive_tonnage 0
  e.adjusted_tonnage.getD (e.minimum_tonnage + incentive)

/-- `total_planned = sum(planned_tonnage_for(e) for e in enrollments)`. -/
def totalPlannedTonnage (es : List Enrollment) : Int :=
  (es.map plannedTonnageFor).sum

/-- `total_actual = sum((e.calculated_vld_total_tonnage or 0) for e in enrollments)`. -/
def totalActualVldTonnage (es : List Enrollment) : Int :=
  (es.map (fun e => pyOrInt e.calculated_vld_total_tonnage 0)).sum

/-- One summand of `total_variance` in `Production.to_dict` (line 297):
`e.vld_tonnage_variance or ((e.calculated_vld_total_tonnage or 0) - planned_tonnage_for(e))`.
Note the Python `or`: a stored variance of `0` is falsy and selects the
recomputed fallback. -/
def vldVarianceContribution (e : Enrollment) : Int :=
  pyOrInt e.vld_tonnage_variance
    (pyOrInt e.calculated_vld_total_tonnage 0 - plannedTonnageFor e)

/-- `total_variance = sum(... for e in enrollments)` of `Production.to_dict`. -/
def totalVldVariance (es : List Enrollment) : Int :=
  (es.map vldVarianceContribution).sum

/-- The per-enrollment `share` computed when `Production.to_dict` expands
enrollments (lines 313-314): `float(planned / total_planned) if total_planned else 0.0`,
with Python float division modelled as exact division on `ℚ`. -/
def enrollmentShare (total : Int) (e : Enrollment) : ℚ :=
  if total = 0 then 0
  else ((e.toDict.planned_tonnage : ℚ) / (total : ℚ))

/-! ## The single-ACTIVE-per-year status validator

`Production._validate_single_active_per_year` fires whenever the `status`
attribute is assigned (SQLAlchemy `@validates("status")`).  The session is
modelled as the list of `ProductionRow`s visible to its queries, and
`object_session(self) is None` as the flag `attached = false`. -/

/-- The existence query of the validator: rows with the same
`contractual_year` and status `ACTIVE`, excluding `self.id` when the
instance already has an id (production.py, lines 174-184). -/
def hasOtherActive (db : List ProductionRow) (year : Int) (selfId : Option Nat) : Bool :=
  db.any fun r =>
    r.contractualYear == year && r.status == ProductionStatus.active &&
      (match selfId with
       | none => true
       | some i => !(r.id == i))

/-- Error message raised by the validator. -/
def activeConflictMsg : String :=
  "There is already an ACTIVE scenario for the year."

/-- `Production._validate_single_active_per_year` (production.py, lines
166-189): only a transition to `ACTIVE` is checked; a detached instance
(`object_session(self) is None`) is accepted unconditionally; otherwise
the query for another ACTIVE row of the same year decides. -/
def validateStatus (attached : Bool) (db : List ProductionRow) (year : Int)
    (selfId : Option Nat) (value : ProductionStatus) : Except String ProductionStatus :=
  if value = ProductionStatus.active then
    if attached = false then Except.ok value
    else if hasOtherActive db year selfId then Except.error activeConflictMsg
    else Except.ok value
  else Except.ok value

/-- Assigning `status := value` on the session-attached row with id
`selfId`: the validator runs against the session contents; on success the
attribute is written, on failure the exception propagates and nothing is
assigned. -/
def setStatus (db : List ProductionRow) (selfId : Nat) (value : ProductionStatus) :
    Except String (List ProductionRow) :=
  match db.find? (fun r => r.id == selfId) with
  | none => Except.error "instance is not in the session"
  | some self =>
    match validateStatus true db self.contractualYear (some selfId) value with
    | Except.error e => Except.error e
    | Except.ok v =>
      Except.ok (db.map fun r => if r.id == selfId then { r with status := v } else r)

/-- The session state after a status assignment: a raised `ValueError`
prevents the assignment, so on error the state is unchanged. -/
def setStatusState (db : List ProductionRow) (selfId : Nat) (value : ProductionStatus) :
    List ProductionRow :=
  match setStatus db selfId value with
  | Except.ok db2 => db2
  | Except.error _ => db

/-- At most one ACTIVE row per contractual year, as a decidable check over
the row list. -/
def atMostOneActivePerYear (db : List ProductionRow) : Bool :=
  db.all fun r => db.all fun s =>
    !(r.status == ProductionStatus.active && s.status == ProductionStatus.active &&
      r.contractualYear == s.contractualYear) || r.id == s.id

/-! ## Storage-level constraints (enrollments and products)

These model the declared table constraints, which the database checks when
the ORM flushes an INSERT (`session.flush()` in the repositories); a
violation surfaces as an `IntegrityError`. -/

/-- Kinds of integrity errors the database raises at flush time. -/
inductive DbError
  | uniqueViolation
  | checkViolation
deriving DecidableEq, Repr

/-- The CHECK constraints of `production_partner_enrollment.__table_args__`
(production.py, lines 418-429): positive vessel size, non-negative
tonnages, and `NOT (manual_incentive_tonnage IS NOT NULL AND
calculated_incentive_tonnage IS NOT NULL)`. -/
def enrollmentChecksOk (e : Enrollment) : Bool :=
  (0 < e.vessel_size_t) &&
  (0 ≤ e.minimum_tonnage) &&
  (match e.adjusted_tonnage with
   | none => true
   | some a => 0 ≤ a) &&
  (match e.manual_incentive_tonnage with
   | none => true
   | some m => 0 ≤ m) &&
  !(e.manual_incentive_tonnage.isSome && e.calculated_incentive_tonnage.isSome)

/-- Inserting an enrollment row: the database enforces the unique
constraint `uq_prod_partner` on `(production_id, partner_id)` and the
CHECK constraints; there is no application-level pre-flight validation of
the incentive exclusivity anywhere in the codebase. -/
def insertEnrollment (db : List Enrollment) (e : Enrollment) :
    Except DbError (List Enrollment) :=
  if db.any fun q => q.production_id == e.production_id && q.partner_id == e.partner_id then
    Except.error DbError.uniqueViolation
  else if !enrollmentChecksOk e then
    Except.error DbError.checkViolation
  else
    Except.ok (db ++ [e])

/-- A `products` row (app/models/product.py). -/
structure ProductRow where
  id : Nat
  mine_id : Nat
  name : String
  code : Option String
  deleted_at : Option Int
deriving DecidableEq, Repr

/-- Violation of `uq_product_mine_name` (`UniqueConstraint('mine_id', 'name')`
in `Product.__table_args__`, product.py lines 245-251). -/
def productNameMineConflict (db : List ProductRow) (p : ProductRow) : Bool :=
  db.any fun q => q.mine_id == p.mine_id && q.name == p.name

/-- Violation of the global uniqueness of `Product.code` (`unique=True` on
the nullable `code` column; NULL codes never conflict). -/
def productCodeConflict (db : List ProductRow) (p : ProductRow) : Bool :=
  match p.code with
  | none => false
  | some c => db.any fun q => q.code == some c

/-- Inserting a product row (`create_for_mine` adds and flushes; the
database raises an `IntegrityError` on a uniqueness violation). -/
def insertProduct (db : List ProductRow) (p : ProductRow) :
    Except DbError (List ProductRow) :=
  if productNameMineConflict db p || productCodeConflict db p then
    Except.error DbError.uniqueViolation
  else
    Except.ok (db ++ [p])

/-! ## Mine repository (app/mine/repository/mine_repository.py)

Timestamps are modelled as `Int` (only their ordering matters), the
`deleted_by` audit column as `Option Int`. -/

/-- A `mines` row with the columns `_apply_filter`, `delete` and `restore`
touch, plus the audit columns of `BaseModel`. -/
structure MineRow where
  id : Nat
  name : String
  code : Option String
  country : String
  created_at : Option Int
  updated_at : Option Int
  deleted_at : Option Int
  deleted_by : Option Int
deriving DecidableEq, Repr

/-- The database as the mine repository sees it: the `mines` table and the
`products` table (products reference mines through `mine_id`). -/
structure MineDb where
  mines : List MineRow
  products : List ProductRow
deriving DecidableEq, Repr

/-- The `MineFilter` dataclass (mine_repository.py, lines 60-73). -/
structure MineFilter where
  name : Option String := none
  code : Option String := none
  country : Option String := none
  q : Option String := none
  include_deleted : Bool := false
  only_deleted : Bool := false
  created_from : Option Int := none
  created_to : Option Int := none
  updated_from : Option Int := none
  updated_to : Option Int := none
deriving DecidableEq, Repr

/-- The default `MineFilter()`. -/
def defaultMineFilter : MineFilter := {}

/-- Case-insensitive containment, the semantics of SQL
`col ILIKE '%pat%'` on a non-NULL column value. -/
def listStartsWith : List Char → List Char → Bool
  | _, [] => true
  | [], _ :: _ => false
  | a :: as, b :: bs => a == b && listStartsWith as bs

/-- Does `needle` occur as a contiguous run inside `hay`? -/
def listHasSub (needle : List Char) : List Char → Bool
  | [] => listStartsWith [] needle
  | c :: rest => listStartsWith (c :: rest) needle || listHasSub needle rest

/-- `value ILIKE '%pat%'` for a string column. -/
def ilikeContains (value : String) (pat : String) : Bool :=
  listHasSub pat.toLower.data value.toLower.data

/-- The soft-deletion clause of `_apply_filter` (mine_repository.py, lines
166-170): `only_deleted` demands `deleted_at != None`, otherwise a filter
without `include_deleted` demands `deleted_at == None`. -/
def deletedCond (f : MineFilter) (m : MineRow) : Bool :=
  if f.only_deleted then m.deleted_at.isSome
  else if !f.include_deleted then m.deleted_at.isNone
  else true

/-- An exact-match string condition appended only when the filter field is
truthy (`if flt.name: conds.append(Mine.name == flt.name)`). -/
def exactCond (field : Option String) (value : String) : Bool :=
  if pyTruthyStr field then field == some value else true

/-- The exact-match condition on the nullable `code` column: SQL equality
with a NULL column value is not satisfied. -/
def exactCondOpt (field : Option String) (value : Option String) : Bool :=
  if pyTruthyStr field then
    match value with
    | none => false
    | some c => field == some c
  else true

/-- The `q` search clause (lines 178-183), modelled as the intended OR of
`ILIKE '%q.strip()%'` over name, country and code.  The source builds it
with `func.or_(*search_conditions)` — a generic SQL function call (`or_`
itself is not imported at line 15) that a database would reject at
execution time rather than a boolean OR.  Treating it as the OR is the
generous reading: for the deletion-visibility theorems this is
conservative, because the conditions of `_apply_filter` are conjunctive,
so any behaviour of the `q` clause (OR or a raised execution error) can
only shrink the result set further. -/
def qCond (field : Option String) (m : MineRow) : Bool :=
  match field with
  | none => true
  | some s =>
    if s = "" then true
    else
      ilikeContains m.name s.trim || ilikeContains m.country s.trim ||
        (match m.code with
         | none => false
         | some c => ilikeContains c s.trim)

/-- A lower-bound condition on a nullable timestamp column (SQL `col >= b`
is not satisfied by NULL). -/
def tsGeCond (bound : Option Int) (value : Option Int) : Bool :=
  match bound with
  | none => true
  | some b =>
    match value with
    | none => false
    | some t => b ≤ t

/-- An upper-bound condition on a nullable timestamp column. -/
def tsLeCond (bound : Option Int) (value : Option Int) : Bool :=
  match bound with
  | none => true
  | some b =>
    match value with
    | none => false
    | some t => t ≤ b

/-- `_apply_filter` (mine_repository.py, lines 161-196) as a predicate on
one row: the conjunction of all appended conditions. -/
def mineMatchesFilter (f : MineFilter) (m : MineRow) : Bool :=
  deletedCond f m &&
  exactCond f.name m.name &&
  exactCondOpt f.code m.code &&
  exactCond f.country m.country &&
  qCond f.q m &&
  tsGeCond f.created_from m.created_at &&
  tsLeCond f.created_to m.created_at &&
  tsGeCond f.updated_from m.updated_at &&
  tsLeCond f.updated_to m.updated_at

/-- The row set produced by `list`: the base statement is built with
`include_deleted=True` ("filter decides deletion view") and then
`_apply_filter` runs; `if not flt: return stmt` leaves a `None` filter
unrestricted.  Sorting and pagination only rearrange and slice this set. -/
def listMinesFiltered (db : MineDb) (flt : Option MineFilter) : List MineRow :=
  match flt with
  | none => db.mines
  | some f => db.mines.filter (mineMatchesFilter f)

/-- The per-row effect of the soft delete: on the targeted row, set
`deleted_at` to now and set `deleted_by` only when a deleting user was
given; the flush emits an UPDATE, so `BaseModel.updated_at` (declared
with `onupdate=datetime.utcnow`, base_model.py lines 44-50) is rewritten
to the flush time as well.  Every other row is left alone. -/
def markMineDeleted (id : Nat) (now : Int) (deletedBy : Option Int) (m : MineRow) :
    MineRow :=
  if m.id == id then
    { m with updated_at := some now,
             deleted_at := some now,
             deleted_by := match deletedBy with
               | some u => some u
               | none => m.deleted_by }
  else m

/-- The per-row effect of the restore: clear `deleted_at` and `deleted_by`
of the targeted row; the flush's `onupdate` rewrites `updated_at` to the
flush time. -/
def clearMineDeleted (id : Nat) (now : Int) (m : MineRow) : MineRow :=
  if m.id == id then
    { m with updated_at := some now, deleted_at := none, deleted_by := none }
  else m

/-- `SQLAlchemyMineRepository.delete` with `soft=True` (lines 285-291):
`get_or_fail(include_deleted=True)`, then set `deleted_at` to now and
`deleted_by` only when a deleting user is given, then flush (which also
stamps `updated_at` via the column's `onupdate`).  The deletion time and
the flush time are modelled by the same instant `now`. -/
def softDeleteMine (db : MineDb) (id : Nat) (now : Int) (deletedBy : Option Int) :
    Except String MineDb :=
  match db.mines.find? (fun m => m.id == id) with
  | none => Except.error "NotFoundError"
  | some _ =>
    Except.ok { db with mines := db.mines.map (markMineDeleted id now deletedBy) }

/-- `SQLAlchemyMineRepository.restore` (lines 295-304): clear `deleted_at`
and `deleted_by`, then flush; `now` is the flush time the `onupdate`
writes into `updated_at`. -/
def restoreMine (db : MineDb) (id : Nat) (now : Int) : Except String MineDb :=
  match db.mines.find? (fun m => m.id == id) with
  | none => Except.error "NotFoundError"
  | some _ =>
    Except.ok { db with mines := db.mines.map (clearMineDeleted id now) }

/-! ## Write operations and transaction rollback

`BaseRepository.create/update/delete/restore` (app/lib/repository/base.py)
and `MineService.create_mine.create_operation` all follow the shape
`try: mutate; commit except: rollback; raise`.  A session is a committed
state plus a pending working state; `commit` publishes the pending state
and `rollback` discards it.  The fallible mutation bodies are parameters,
so the theorems quantify over every possible body. -/

/-- A database session: the committed (durable) state and the pending
working state of the open transaction. -/
structure DbSession (σ : Type) where
  committed : σ
  pending : σ
deriving Repr

/-- `session.rollback()`: the pending state reverts to the committed one. -/
def rollbackTo {σ : Type} (s : DbSession σ) : DbSession σ :=
  { committed := s.committed, pending := s.committed }

/-- Outcome of a write operation: the returned value or the raised
exception, together with the session it leaves behind. -/
inductive WriteOutcome (σ ε α : Type)
  | ok (value : α) (finalSession : DbSession σ)
  | error (e : ε) (finalSession : DbSession σ)

/-- `BaseRepository.create` (base.py, lines 77-92): run the body (audit
fields, hooks, model construction, `session.add`) against the pending
state, commit, and roll back when anything raises (also when the commit
itself fails). -/
def baseRepoCreate {σ ε : Type} (work : σ → Except ε σ) (commitOk : σ → Bool)
    (commitErr : ε) (s : DbSession σ) : WriteOutcome σ ε Unit :=
  match work s.pending with
  | Except.error e => WriteOutcome.error e (rollbackTo s)
  | Except.ok p =>
    if commitOk p then WriteOutcome.ok () { committed := p, pending := p }
    else WriteOutcome.error commitErr (rollbackTo s)

/-- `BaseRepository.update` (base.py, lines 94-115): a missing entity
returns `None` without touching the transaction; otherwise apply the
changes, commit, and roll back on any exception. -/
def baseRepoUpdate {σ ι ε : Type} (lookup : σ → Option ι)
    (applyChanges : ι → σ → Except ε σ) (commitOk : σ → Bool) (commitErr : ε)
    (s : DbSession σ) : WriteOutcome σ ε (Option ι) :=
  match lookup s.pending with
  | none => WriteOutcome.ok none s
  | some ent =>
    match applyChanges ent s.pending with
    | Except.error e => WriteOutcome.error e (rollbackTo s)
    | Except.ok p =>
      if commitOk p then WriteOutcome.ok (some ent) { committed := p, pending := p }
      else WriteOutcome.error commitErr (rollbackTo s)

/-- `BaseRepository.delete` (base.py, lines 117-139): a missing entity
returns `False`; otherwise mark (soft) or remove (hard), commit, and roll
back on any exception. -/
def baseRepoDelete {σ ι ε : Type} (lookup : σ → Option ι)
    (mark : ι → σ → Except ε σ) (commitOk : σ → Bool) (commitErr : ε)
    (s : DbSession σ) : WriteOutcome σ ε Bool :=
  match lookup s.pending with
  | none => WriteOutcome.ok false s
  | some ent =>
    match mark ent s.pending with
    | Except.error e => WriteOutcome.error e (rollbackTo s)
    | Except.ok p =>
      if commitOk p then WriteOutcome.ok true { committed := p, pending := p }
      else WriteOutcome.error commitErr (rollbackTo s)

/-- `BaseRepository.restore` (base.py, lines 141-168): disabled soft
delete or a missing soft-deleted entity return `False`; otherwise clear
`deleted_at`, commit, and roll back on any exception. -/
def baseRepoRestore {σ ι ε : Type} (softDeleteEnabled : Bool)
    (lookupDeleted : σ → Option ι) (clear : ι → σ → Except ε σ)
    (commitOk : σ → Bool) (commitErr : ε) (s : DbSession σ) :
    WriteOutcome σ ε Bool :=
  if !softDeleteEnabled then WriteOutcome.ok false s
  else
    match lookupDeleted s.pending with
    | none => WriteOutcome.ok false s
    | some ent =>
      match clear ent s.pending with
      | Except.error e => WriteOutcome.error e (rollbackTo s)
      | Except.ok p =>
        if commitOk p then WriteOutcome.ok true { committed := p, pending := p }
        else WriteOutcome.error commitErr (rollbackTo s)

/-- `MineService.create_mine.create_operation` (mine_service.py, lines
221-231): `repo.create` (add + flush) then `db.session.commit()`; both
`except` arms roll back and re-raise a translated error. -/
def mineCreateOperation {σ ε : Type} (repoCreateStep : σ → Except ε σ)
    (commitOk : σ → Bool) (translate : ε → ε) (commitErr : ε)
    (s : DbSession σ) : WriteOutcome σ ε Unit :=
  match repoCreateStep s.pending with
  | Except.error e => WriteOutcome.error (translate e) (rollbackTo s)
  | Except.ok p =>
    if commitOk p then WriteOutcome.ok () { committed := p, pending := p }
    else WriteOutcome.error commitErr (rollbackTo s)

/-! ## Concrete rows used by counterexamples and witnesses -/

/-- Enrollment with a manual incentive of 500 on a minimum of 1000 and no
adjusted override. -/
def c2IncentiveEnr : Enrollment :=
  { production_id := 1, partner_id := 1, vessel_size_t := 100
    minimum_tonnage := 1000, adjusted_tonnage := none
    manual_incentive_tonnage := some 500, calculated_incentive_tonnage := none
    calculated_vld_count := some 0, calculated_vld_total_tonnage := some 0
    vld_tonnage_variance := some 0 }

/-- Enrollment with `adjusted_tonnage = 1800` and incentive fields set. -/
def c2AdjustedEnr : Enrollment :=
  { production_id := 1, partner_id := 2, vessel_size_t := 100
    minimum_tonnage := 1000, adjusted_tonnage := some 1800
    manual_incentive_tonnage := some 500, calculated_incentive_tonnage := none
    calculated_vld_count := some 0, calculated_vld_total_tonnage := some 0
    vld_tonnage_variance := some 0 }

/-- Enrollment with a stored `vld_tonnage_variance` of `0` while
`calculated_vld_total_tonnage - planned = 100 - 50 = 50`. -/
def c3Enr : Enrollment :=
  { production_id := 1, partner_id := 3, vessel_size_t := 100
    minimum_tonnage := 50, adjusted_tonnage := none
    manual_incentive_tonnage := none, calculated_incentive_tonnage := none
    calculated_vld_count := some 2, calculated_vld_total_tonnage := some 100
    vld_tonnage_variance := some 0 }

/-- Enrollment with a nonzero stored variance, on which the two variance
rules agree. -/
def c3WitEnr : Enrollment :=
  { production_id := 1, partner_id := 4, vessel_size_t := 100
    minimum_tonnage := 50, adjusted_tonnage := none
    manual_incentive_tonnage := none, calculated_incentive_tonnage := none
    calculated_vld_count := some 1, calculated_vld_total_tonnage := some 60
    vld_tonnage_variance := some 7 }

/-- Enrollment with both incentive fields set (violating the exclusivity
CHECK constraint) and every other column within bounds. -/
def c4Enr : Enrollment :=
  { production_id := 2, partner_id := 5, vessel_size_t := 60
    minimum_tonnage := 1000, adjusted_tonnage := none
    manual_incentive_tonnage := some 500, calculated_incentive_tonnage := some 300
    calculated_vld_count := some 0, calculated_vld_total_tonnage := some 0
    vld_tonnage_variance := some 0 }

/-- Enrollment with stored variance `0` and a recomputed fallback of
`40 - 10 = 30`. -/
def c5Enr : Enrollment :=
  { production_id := 3, partner_id := 6, vessel_size_t := 60
    minimum_tonnage := 10, adjusted_tonnage := none
    manual_incentive_tonnage := none, calculated_incentive_tonnage := none
    calculated_vld_count := some 1, calculated_vld_total_tonnage := some 40
    vld_tonnage_variance := some 0 }

/-- Enrollment planned at 5 t (via the adjusted override). -/
def c5PosEnr : Enrollment :=
  { production_id := 4, partner_id := 7, vessel_size_t := 60
    minimum_tonnage := 0, adjusted_tonnage := some 5
    manual_incentive_tonnage := none, calculated_incentive_tonnage := none
    calculated_vld_count := some 0, calculated_vld_total_tonnage := some 0
    vld_tonnage_variance := some 0 }

/-- Enrollment planned at -5 t (negative calculated incentives are not
excluded by any CHECK constraint), so the two together sum to 0. -/
def c5NegEnr : Enrollment :=
  { production_id := 4, partner_id := 8, vessel_size_t := 60
    minimum_tonnage := 0, adjusted_tonnage := none
    manual_incentive_tonnage := none, calculated_incentive_tonnage := some (-5)
    calculated_vld_count := some 0, calculated_vld_total_tonnage := some 0
    vld_tonnage_variance := some 0 }

/-- A production scenario list for the year 2025: row 1 is ACTIVE, row 2
is a DRAFT for the same year. -/
def c1Db : List ProductionRow :=
  [{ id := 1, contractualYear := 2025, status := ProductionStatus.active },
   { id := 2, contractualYear := 2025, status := ProductionStatus.draft }]

/-- A single-scenario list used for the successful-transition witness. -/
def c1OkDb : List ProductionRow :=
  [{ id := 3, contractualYear := 2026, status := ProductionStatus.draft }]

/-- Existing product "Bauxite" under mine 10. -/
def c9Db : List ProductRow :=
  [{ id := 1, mine_id := 10, name := "Bauxite", code := none, deleted_at := none }]

/-- A second "Bauxite" under the same mine 10. -/
def c9Dup : ProductRow :=
  { id := 2, mine_id := 10, name := "Bauxite", code := none, deleted_at := none }

/-- A "Bauxite" under a different mine 20. -/
def c9Other : ProductRow :=
  { id := 3, mine_id := 20, name := "Bauxite", code := none, deleted_at := none }

/-- A mine row used by the soft-delete witness. -/
def c8Mine : MineRow :=
  { id := 1, name := "Sangaredi", code := some "SGD", country := "Guinea"
    created_at := some 10, updated_at := some 10, deleted_at := none, deleted_by := none }

/-- A second, unrelated mine row. -/
def c8OtherMine : MineRow :=
  { id := 2, name := "Boke", code := none, country := "Guinea"
    created_at := some 11, updated_at := some 11, deleted_at := none, deleted_by := none }

/-- A database with two mines and one product owned by mine 1. -/
def c8Db : MineDb :=
  { mines := [c8Mine, c8OtherMine]
    products := [{ id := 1, mine_id := 1, name := "Bauxite", code := none, deleted_at := none }] }

/-- The mine rows of `c8Db` after soft-deleting mine 1 at time 5 by user
9: the target's `updated_at` is rewritten to the flush time along with
the deletion stamps. -/
def c8DelMines : List MineRow :=
  [{ c8Mine with updated_at := some 5, deleted_at := some 5, deleted_by := some 9 },
   c8OtherMine]

/-! ## Theorems -/

/-- The helper `planned_tonnage_for` of `Production.to_dict` computes the
same value as the `planned_tonnage` entry of
`ProductionPartnerEnrollment.to_dict`. -/
theorem plannedTonnageFor_eq_toDict (e : Enrollment) :
    plannedTonnageFor e = e.toDict.planned_tonnage := rfl

/-- C2: the serialized `planned_tonnage` equals `adjusted_tonnage` when
that is set and `minimum_tonnage + incentive_tonnage` otherwise; in
particular a manual incentive of 500 on a minimum of 1000 yields 1500,
and an adjusted tonnage of 1800 yields 1800 regardless of incentives. -/
theorem c2_planned_tonnage :
    (∀ e : Enrollment,
      e.toDict.planned_tonnage =
        match e.adjusted_tonnage with
        | some a => a
        | none => e.minimum_tonnage + e.incentive_tonnage) ∧
    c2IncentiveEnr.toDict.planned_tonnage = 1500 ∧
    c2AdjustedEnr.toDict.planned_tonnage = 1800 := by
  refine ⟨fun e => ?_, by decide, by decide⟩
  obtain ⟨p, q, vs, mt, adj, man, cal, cnt, tot, var⟩ := e
  cases adj <;> rfl

/-- C6: `incentive_tonnage` prefers the manual value, then the calculated
value, then 0; the serialized `incentive_tonnage` agrees with the
property. -/
theorem c6_incentive_priority (e : Enrollment) :
    (e.incentive_tonnage =
      match e.manual_incentive_tonnage with
      | some m => m
      | none =>
        match e.calculated_incentive_tonnage with
        | some c => c
        | none => (0 : Int)) ∧
    e.toDict.incentive_tonnage = e.incentive_tonnage := by
  refine ⟨?_, rfl⟩
  unfold Enrollment.incentive_tonnage pyOrInt
  cases e.manual_incentive_tonnage with
  | some m => rfl
  | none =>
    cases e.calculated_incentive_tonnage with
    | none => rfl
    | some c =>
      by_cases hc : c = 0 <;> simp [hc]

/-- C3 counterexample: for an enrollment whose stored
`vld_tonnage_variance` is 0 while `calculated_vld_total_tonnage -
planned = 50`, the per-enrollment serialization reports 0 but the
Production-level `total_vld_variance` aggregation reports 50, so the two
rules disagree. -/
theorem c3_counterexample :
    totalVldVariance [c3Enr] = 50 ∧
    (Enrollment.toDict c3Enr).vld_tonnage_variance = 0 ∧
    totalVldVariance [c3Enr] ≠
      ([c3Enr].map (fun e => (Enrollment.toDict e).vld_tonnage_variance)).sum := by
  refine ⟨by decide, by decide, by decide⟩

/-- C3 amended: the per-enrollment serialization reports the stored
`vld_tonnage_variance` when it is not `None` and otherwise recomputes
`actual - planned`; the Production-level aggregation instead treats a
stored 0 as absent (Python `or`), so its summand agrees with the
serialized variance exactly for enrollments whose stored variance is not
`Some 0`. -/
theorem c3_variance_rule (e : Enrollment) :
    (e.toDict.vld_tonnage_variance =
      match e.vld_tonnage_variance with
      | some v => v
      | none => pyOrInt e.calculated_vld_total_tonnage 0 - e.toDict.planned_tonnage) ∧
    (e.vld_tonnage_variance ≠ some 0 →
      vldVarianceContribution e = e.toDict.vld_tonnage_variance) := by
  obtain ⟨p, q, vs, mt, adj, man, cal, cnt, tot, var⟩ := e
  constructor
  · cases var <;> rfl
  · intro hne
    cases var with
    | none => rfl
    | some v =>
      have hv0 : ¬ v = 0 := fun h => hne (by rw [h])
      unfold vldVarianceContribution pyOrInt
      simp [Enrollment.toDict, hv0]

/-- Witness for the amended C3 at a concrete enrollment with stored
variance 7. -/
theorem c3_variance_rule_witness :
    c3WitEnr.vld_tonnage_variance ≠ some 0 ∧
    vldVarianceContribution c3WitEnr = c3WitEnr.toDict.vld_tonnage_variance :=
  ⟨by decide, (c3_variance_rule c3WitEnr).2 (by decide)⟩

/-- C5 counterexample: the enrollment-summary `total_vld_variance` is not
the sum of the per-enrollment serialized variances: with one enrollment
whose stored variance is 0 and whose recomputed fallback is 30, the
summary reports 30 while the serialized variances sum to 0. -/
theorem c5_counterexample :
    totalVldVariance [c5Enr] = 30 ∧
    ([c5Enr].map (fun e => (Enrollment.toDict e).vld_tonnage_variance)).sum = 0 ∧
    totalVldVariance [c5Enr] ≠
      ([c5Enr].map (fun e => (Enrollment.toDict e).vld_tonnage_variance)).sum := by
  refine ⟨by decide, by decide, by decide⟩

/-- C5 amended: `total_planned_tonnage` and `total_actual_vld_tonnage`
are the sums of the per-enrollment serialized planned and actual VLD
tonnages; `total_vld_variance` sums the truthiness-based summand
`vldVarianceContribution` (which can differ from the serialized variance
when the stored variance is 0); and `share` is the planned tonnage
divided by the planned total, with share = 0 for every enrollment when
the total is 0 so the division is never executed. -/
theorem c5_summary (es : List Enrollment) :
    totalPlannedTonnage es = (es.map (fun e => e.toDict.planned_tonnage)).sum ∧
    totalActualVldTonnage es = (es.map (fun e => e.toDict.vld_total_tonnage)).sum ∧
    totalVldVariance es = (es.map vldVarianceContribution).sum ∧
    (∀ e ∈ es, totalPlannedTonnage es = 0 →
      enrollmentShare (totalPlannedTonnage es) e = 0) ∧
    (∀ e ∈ es, totalPlannedTonnage es ≠ 0 →
      enrollmentShare (totalPlannedTonnage es) e =
        (e.toDict.planned_tonnage : ℚ) / (totalPlannedTonnage es : ℚ)) := by
  refine ⟨rfl, rfl, rfl, ?_, ?_⟩
  · intro e _ h0
    unfold enrollmentShare
    rw [if_pos h0]
  · intro e _ h0
    unfold enrollmentShare
    rw [if_neg h0]

/-- Witness for the amended C5 at a two-enrollment list whose planned
tonnages sum to 0: every share is 0. -/
theorem c5_summary_witness :
    c5PosEnr ∈ [c5PosEnr, c5NegEnr] ∧
    totalPlannedTonnage [c5PosEnr, c5NegEnr] = 0 ∧
    enrollmentShare (totalPlannedTonnage [c5PosEnr, c5NegEnr]) c5PosEnr = 0 :=
  ⟨by decide, by decide,
    (c5_summary [c5PosEnr, c5NegEnr]).2.2.2.1 c5PosEnr (by decide) (by decide)⟩

/-- C4 counterexample: inserting an enrollment with both incentive fields
set is rejected by the database CHECK constraint at flush time — an
integrity error from the storage layer, not a clean application-level
pre-flight validation error (no such validation exists in the code). -/
theorem c4_counterexample :
    insertEnrollment [] c4Enr = Except.error DbError.checkViolation := rfl

/-- C4 amended: an enrollment with both `manual_incentive_tonnage` and
`calculated_incentive_tonnage` set is always rejected at the storage
layer, whatever the rest of the row and the existing table contents. -/
theorem c4_incentive_exclusivity (db : List Enrollment) (e : Enrollment)
    (h1 : e.manual_incentive_tonnage.isSome = true)
    (h2 : e.calculated_incentive_tonnage.isSome = true) :
    ∃ err, insertEnrollment db e = Except.error err := by
  unfold insertEnrollment
  split
  · exact ⟨DbError.uniqueViolation, rfl⟩
  · have hok : enrollmentChecksOk e = false := by
      simp [enrollmentChecksOk, h1, h2]
    rw [hok]
    exact ⟨DbError.checkViolation, rfl⟩

/-- Witness for the amended C4 at the concrete double-incentive row. -/
theorem c4_incentive_exclusivity_witness :
    c4Enr.manual_incentive_tonnage.isSome = true ∧
    c4Enr.calculated_incentive_tonnage.isSome = true ∧
    ∃ err, insertEnrollment [] c4Enr = Except.error err :=
  ⟨rfl, rfl, c4_incentive_exclusivity [] c4Enr rfl rfl⟩

/-- C9: inserting a product whose `(mine_id, name)` pair is already taken
fails with a uniqueness violation, while an insert with no
`(mine_id, name)` conflict and no code conflict succeeds — product names
are unique per mine, not globally. -/
theorem c9_product_name_unique_per_mine :
    (∀ (db : List ProductRow) (p q : ProductRow), q ∈ db →
      q.mine_id = p.mine_id → q.name = p.name →
      insertProduct db p = Except.error DbError.uniqueViolation) ∧
    (∀ (db : List ProductRow) (p : ProductRow),
      productNameMineConflict db p = false → productCodeConflict db p = false →
      insertProduct db p = Except.ok (db ++ [p])) := by
  constructor
  · intro db p q hq hmine hname
    have hconf : productNameMineConflict db p = true := by
      unfold productNameMineConflict
      rw [List.any_eq_true]
      exact ⟨q, hq, by simp [hmine, hname]⟩
    unfold insertProduct
    rw [hconf]
    rfl
  · intro db p h1 h2
    unfold insertProduct
    rw [h1, h2]
    rfl

/-- Witness for C9: a duplicate "Bauxite" under mine 10 is rejected, the
same name under mine 20 is accepted. -/
theorem c9_product_name_unique_per_mine_witness :
    insertProduct c9Db c9Dup = Except.error DbError.uniqueViolation ∧
    insertProduct c9Db c9Other = Except.ok (c9Db ++ [c9Other]) :=
  ⟨c9_product_name_unique_per_mine.1 c9Db c9Dup
      { id := 1, mine_id := 10, name := "Bauxite", code := none, deleted_at := none }
      (List.Mem.head _) rfl rfl,
    c9_product_name_unique_per_mine.2 c9Db c9Other rfl rfl⟩

/-- C7: the status validator raises exactly when the new value is ACTIVE,
the instance is attached to a session, and another ACTIVE row (other than
self) exists for the same contractual year; in particular a detached
instance accepts any status unconditionally. -/
theorem c7_detached_validator (attached : Bool) (db : List ProductionRow)
    (year : Int) (selfId : Option Nat) (value : ProductionStatus) :
    (validateStatus attached db year selfId value = Except.error activeConflictMsg ↔
      (value = ProductionStatus.active ∧ attached = true ∧
        hasOtherActive db year selfId = true)) ∧
    validateStatus false db year selfId value = Except.ok value := by
  constructor
  · unfold validateStatus
    by_cases hv : value = ProductionStatus.active
    · cases attached with
      | false => simp [hv]
      | true =>
        cases h : hasOtherActive db year selfId with
        | false => simp [hv, h]
        | true => simp [hv, h]
    · simp [hv]
  · unfold validateStatus
    by_cases hv : value = ProductionStatus.active <;> simp [hv]

/-- C10: each write operation — `BaseRepository.create`, `update`,
`delete`, `restore` and `MineService.create_mine.create_operation` —
leaves, whenever it raises, a session whose committed state is untouched
and whose pending state has been rolled back to it: the stored state is
exactly what it was before the operation and no partial commit is
observable. -/
theorem c10_rollback_on_error {σ ι ε : Type} :
    (∀ (work : σ → Except ε σ) (commitOk : σ → Bool) (commitErr : ε)
        (s : DbSession σ) (e : ε) (s' : DbSession σ),
      baseRepoCreate work commitOk commitErr s = WriteOutcome.error e s' →
      s'.committed = s.committed ∧ s'.pending = s.committed) ∧
    (∀ (lookup : σ → Option ι) (applyChanges : ι → σ → Except ε σ)
        (commitOk : σ → Bool) (commitErr : ε) (s : DbSession σ) (e : ε)
        (s' : DbSession σ),
      baseRepoUpdate lookup applyChanges commitOk commitErr s = WriteOutcome.error e s' →
      s'.committed = s.committed ∧ s'.pending = s.committed) ∧
    (∀ (lookup : σ → Option ι) (mark : ι → σ → Except ε σ)
        (commitOk : σ → Bool) (commitErr : ε) (s : DbSession σ) (e : ε)
        (s' : DbSession σ),
      baseRepoDelete lookup mark commitOk commitErr s = WriteOutcome.error e s' →
      s'.committed = s.committed ∧ s'.pending = s.committed) ∧
    (∀ (softDeleteEnabled : Bool) (lookupDeleted : σ → Option ι)
        (clear : ι → σ → Except ε σ) (commitOk : σ → Bool) (commitErr : ε)
        (s : DbSession σ) (e : ε) (s' : DbSession σ),
      baseRepoRestore softDeleteEnabled lookupDeleted clear commitOk commitErr s =
        WriteOutcome.error e s' →
      s'.committed = s.committed ∧ s'.pending = s.committed) ∧
    (∀ (repoCreateStep : σ → Except ε σ) (commitOk : σ → Bool)
        (translate : ε → ε) (commitErr : ε) (s : DbSession σ) (e : ε)
        (s' : DbSession σ),
      mineCreateOperation repoCreateStep commitOk translate commitErr s =
        WriteOutcome.error e s' →
      s'.committed = s.committed ∧ s'.pending = s.committed) := by
  refine ⟨?_, ?_, ?_, ?_, ?_⟩
  · intro work commitOk commitErr s e s' h
    unfold baseRepoCreate at h
    split at h
    · cases h
      exact ⟨rfl, rfl⟩
    · split at h
      · cases h
      · cases h
        exact ⟨rfl, rfl⟩
  · intro lookup applyChanges commitOk commitErr s e s' h
    unfold baseRepoUpdate at h
    split at h
    · cases h
    · split at h
      · cases h
        exact ⟨rfl, rfl⟩
      · split at h
        · cases h
        · cases h
          exact ⟨rfl, rfl⟩
  · intro lookup mark commitOk commitErr s e s' h
    unfold baseRepoDelete at h
    split at h
    · cases h
    · split at h
      · cases h
        exact ⟨rfl, rfl⟩
      · split at h
        · cases h
        · cases h
          exact ⟨rfl, rfl⟩
  · intro softDeleteEnabled lookupDeleted clear commitOk commitErr s e s' h
    unfold baseRepoRestore at h
    split at h
    · cases h
    · split at h
      · cases h
      · split at h
        · cases h
          exact ⟨rfl, rfl⟩
        · split at h
          · cases h
          · cases h
            exact ⟨rfl, rfl⟩
  · intro repoCreateStep commitOk translate commitErr s e s' h
    unfold mineCreateOperation at h
    split at h
    · cases h
      exact ⟨rfl, rfl⟩
    · split at h
      · cases h
      · cases h
        exact ⟨rfl, rfl⟩

/-- Witness for C10: a create whose body raises leaves the session with
committed state 3 and pending state rolled back to 3, starting from
committed 3 / pending 7. -/
theorem c10_rollback_on_error_witness :
    (DbSession.mk (3 : Int) 3).committed = (DbSession.mk (3 : Int) 7).committed ∧
    (DbSession.mk (3 : Int) 3).pending = (DbSession.mk (3 : Int) 7).committed :=
  (@c10_rollback_on_error Int Nat String).1 (fun _ => Except.error "boom")
    (fun _ => true) "commit failed" (DbSession.mk 3 7) "boom" (DbSession.mk 3 3) rfl

/-- Boolean shape of one guard of `atMostOneActivePerYear`. -/
theorem bool_guard_iff (a b c d : Bool) :
    ((!(a && b && c)) || d) = true ↔
      (a = true → b = true → c = true → d = true) := by
  cases a <;> cases b <;> cases c <;> cases d <;> simp

/-- Propositional characterization of `atMostOneActivePerYear`. -/
theorem atMostOne_iff (db : List ProductionRow) :
    atMostOneActivePerYear db = true ↔
      ∀ r ∈ db, ∀ s ∈ db, r.status = ProductionStatus.active →
        s.status = ProductionStatus.active →
        r.contractualYear = s.contractualYear → r.id = s.id := by
  unfold atMostOneActivePerYear
  rw [List.all_eq_true]
  constructor
  · intro h r hr s hs h1 h2 h3
    have h4 := (List.all_eq_true.mp (h r hr)) s hs
    rw [bool_guard_iff] at h4
    have h5 := h4 (by simp [h1]) (by simp [h2]) (by simp [h3])
    simpa using h5
  · intro h r hr
    rw [List.all_eq_true]
    intro s hs
    rw [bool_guard_iff]
    intro h1 h2 h3
    have h4 := h r hr s hs (by simpa using h1) (by simpa using h2) (by simpa using h3)
    simp [h4]

/-- Two rows of a list with pairwise-distinct ids and the same id are the
same row. -/
theorem row_id_inj {db : List ProductionRow}
    (hpw : db.Pairwise (fun a b => a.id ≠ b.id)) {a b : ProductionRow}
    (ha : a ∈ db) (hb : b ∈ db) (hid : a.id = b.id) : a = b := by
  by_contra hne
  have hsym : Symmetric (fun a b : ProductionRow => a.id ≠ b.id) :=
    fun x y hxy e => hxy e.symm
  exact hpw.forall hsym ha hb hne hid

/-- The validator never alters an accepted value. -/
theorem validateStatus_ok_val {attached : Bool} {db : List ProductionRow}
    {year : Int} {selfId : Option Nat} {value w : ProductionStatus}
    (h : validateStatus attached db year selfId value = Except.ok w) : w = value := by
  unfold validateStatus at h
  split at h
  · split at h
    · cases h
      rfl
    · split at h
      · cases h
      · cases h
        rfl
  · cases h
    rfl

/-- An accepted ACTIVE transition on an attached instance means no other
ACTIVE row for the year exists. -/
theorem validateStatus_true_active_no_other {db : List ProductionRow}
    {year : Int} {selfId : Option Nat} {w : ProductionStatus}
    (h : validateStatus true db year selfId ProductionStatus.active = Except.ok w) :
    hasOtherActive db year selfId = false := by
  by_cases hcond : hasOtherActive db year selfId = true
  · exfalso
    unfold validateStatus at h
    rw [if_pos rfl, if_neg (by decide), if_pos hcond] at h
    cases h
  · simpa using hcond

/-- Inversion of a successful status assignment. -/
theorem setStatus_ok_inv {db : List ProductionRow} {i : Nat}
    {v : ProductionStatus} {db2 : List ProductionRow}
    (h : setStatus db i v = Except.ok db2) :
    ∃ self, db.find? (fun r => r.id == i) = some self ∧
      (v = ProductionStatus.active →
        hasOtherActive db self.contractualYear (some i) = false) ∧
      db2 = db.map fun r => if r.id == i then { r with status := v } else r := by
  unfold setStatus at h
  cases hf : db.find? (fun r => r.id == i) with
  | none =>
    rw [hf] at h
    cases h
  | some self =>
    rw [hf] at h
    simp only [] at h
    cases hv : validateStatus true db self.contractualYear (some i) v with
    | error e =>
      rw [hv] at h
      cases h
    | ok w =>
      rw [hv] at h
      simp only [] at h
      have hwv : w = v := validateStatus_ok_val hv
      subst hwv
      cases h
      exact ⟨self, rfl, fun hva => validateStatus_true_active_no_other (hva ▸ hv), rfl⟩

/-- A status update leaves the id of every row unchanged. -/
theorem upd_id (i : Nat) (v : ProductionStatus) (r : ProductionRow) :
    (if r.id == i then { r with status := v } else r).id = r.id := by
  split <;> rfl

/-- A status update leaves the contractual year of every row unchanged. -/
theorem upd_year (i : Nat) (v : ProductionStatus) (r : ProductionRow) :
    (if r.id == i then { r with status := v } else r).contractualYear =
      r.contractualYear := by
  split <;> rfl

/-- A status update does not touch rows with a different id. -/
theorem upd_eq_self {i : Nat} {v : ProductionStatus} {r : ProductionRow}
    (h : r.id ≠ i) :
    (if r.id == i then { r with status := v } else r) = r := by
  rw [if_neg (by simp [h])]

/-- A status update rewrites the status of the targeted row. -/
theorem upd_eq_target {i : Nat} {v : ProductionStatus} {r : ProductionRow}
    (h : r.id = i) :
    (if r.id == i then { r with status := v } else r) = { r with status := v } := by
  rw [if_pos (by simp [h])]

/-- C1: while another row of the same contractual year is ACTIVE, setting
the status of a session-attached row to ACTIVE raises the validation
error and leaves the session unchanged — the already-ACTIVE row keeps its
status; and any accepted status assignment preserves the at-most-one-
ACTIVE-per-year invariant. -/
theorem c1_single_active_per_year :
    (∀ (db : List ProductionRow) (selfRow other : ProductionRow),
      db.find? (fun r => r.id == selfRow.id) = some selfRow →
      other ∈ db → other.id ≠ selfRow.id →
      other.contractualYear = selfRow.contractualYear →
      other.status = ProductionStatus.active →
      setStatus db selfRow.id ProductionStatus.active =
        Except.error activeConflictMsg ∧
      setStatusState db selfRow.id ProductionStatus.active = db ∧
      other ∈ setStatusState db selfRow.id ProductionStatus.active ∧
      other.status = ProductionStatus.active) ∧
    (∀ (db : List ProductionRow) (i : Nat) (v : ProductionStatus)
        (db2 : List ProductionRow),
      db.Pairwise (fun a b => a.id ≠ b.id) →
      atMostOneActivePerYear db = true →
      setStatus db i v = Except.ok db2 →
      atMostOneActivePerYear db2 = true) := by
  constructor
  · intro db selfRow other hfind hmem hne hyear hact
    have hother : hasOtherActive db selfRow.contractualYear (some selfRow.id) = true := by
      unfold hasOtherActive
      rw [List.any_eq_true]
      refine ⟨other, hmem, ?_⟩
      simp [hyear, hact, hne]
    have hval : validateStatus true db selfRow.contractualYear (some selfRow.id)
        ProductionStatus.active = Except.error activeConflictMsg := by
      unfold validateStatus
      rw [if_pos rfl, if_neg (by decide), if_pos hother]
    have herr : setStatus db selfRow.id ProductionStatus.active =
        Except.error activeConflictMsg := by
      unfold setStatus
      simp only [hfind, hval]
    have hstate : setStatusState db selfRow.id ProductionStatus.active = db := by
      unfold setStatusState
      simp only [herr]
    exact ⟨herr, hstate, hstate.symm ▸ hmem, hact⟩
  · intro db i v db2 hpw hinv hok
    obtain ⟨self, hfind, hnoother, hdb2⟩ := setStatus_ok_inv hok
    have hselfmem : self ∈ db := List.mem_of_find?_eq_some hfind
    have hselfid : self.id = i := by
      have h0 := List.find?_some hfind
      simpa using h0
    have hinv' := (atMostOne_iff db).mp hinv
    rw [atMostOne_iff]
    subst hdb2
    intro r2 hr2 s2 hs2 hr2a hs2a hyy
    obtain ⟨r, hr, hfr⟩ := List.mem_map.mp hr2
    obtain ⟨s, hs, hfs⟩ := List.mem_map.mp hs2
    by_cases hri : r.id = i <;> by_cases hsi : s.id = i
    · rw [← hfr, ← hfs, upd_id, upd_id, hri, hsi]
    · -- r is the target, s is untouched: the target became ACTIVE, so the
      -- validator guarantees no other ACTIVE row of that year existed
      exfalso
      have hs2eq : s2 = s := by rw [← hfs, upd_eq_self hsi]
      have hr2eq : r2 = { r with status := v } := by rw [← hfr, upd_eq_target hri]
      have hva : v = ProductionStatus.active := by
        rw [hr2eq] at hr2a
        exact hr2a
      have hno := hnoother hva
      have hrself : r = self := row_id_inj hpw hr hselfmem (by rw [hri, hselfid])
      have hsy : s.contractualYear = self.contractualYear := by
        have h1 : r2.contractualYear = r.contractualYear := by rw [hr2eq]
        rw [← hrself, ← h1, hyy, hs2eq]
      have htrue : hasOtherActive db self.contractualYear (some i) = true := by
        unfold hasOtherActive
        rw [List.any_eq_true]
        refine ⟨s, hs, ?_⟩
        have hsa : s.status = ProductionStatus.active := by rw [← hs2eq]; exact hs2a
        simp [hsy, hsa, hsi]
      rw [htrue] at hno
      cases hno
    · -- s is the target, r is untouched: symmetric
      exfalso
      have hr2eq : r2 = r := by rw [← hfr, upd_eq_self hri]
      have hs2eq : s2 = { s with status := v } := by rw [← hfs, upd_eq_target hsi]
      have hva : v = ProductionStatus.active := by
        rw [hs2eq] at hs2a
        exact hs2a
      have hno := hnoother hva
      have hsself : s = self := row_id_inj hpw hs hselfmem (by rw [hsi, hselfid])
      have hry : r.contractualYear = self.contractualYear := by
        have h1 : s2.contractualYear = s.contractualYear := by rw [hs2eq]
        rw [← hsself, ← h1, ← hyy, hr2eq]
      have htrue : hasOtherActive db self.contractualYear (some i) = true := by
        unfold hasOtherActive
        rw [List.any_eq_true]
        refine ⟨r, hr, ?_⟩
        have hra : r.status = ProductionStatus.active := by rw [← hr2eq]; exact hr2a
        simp [hry, hra, hri]
      rw [htrue] at hno
      cases hno
    · -- neither row is the target: inherited from the invariant on db
      have hr2eq : r2 = r := by rw [← hfr, upd_eq_self hri]
      have hs2eq : s2 = s := by rw [← hfs, upd_eq_self hsi]
      rw [hr2eq, hs2eq]
      exact hinv' r hr s hs (hr2eq ▸ hr2a) (hs2eq ▸ hs2a) (by rw [← hr2eq, ← hs2eq]; exact hyy)

/-- Witness for C1: in a session where scenario 1 is ACTIVE for 2025,
activating scenario 2 for 2025 raises and changes nothing; and a
successful DRAFT assignment in a clean session keeps the invariant. -/
theorem c1_single_active_per_year_witness :
    (setStatus c1Db 2 ProductionStatus.active = Except.error activeConflictMsg ∧
      setStatusState c1Db 2 ProductionStatus.active = c1Db ∧
      (⟨1, 2025, ProductionStatus.active⟩ : ProductionRow) ∈
        setStatusState c1Db 2 ProductionStatus.active ∧
      (⟨1, 2025, ProductionStatus.active⟩ : ProductionRow).status =
        ProductionStatus.active) ∧
    atMostOneActivePerYear (setStatusState c1OkDb 3 ProductionStatus.planned) = true := by
  constructor
  · exact c1_single_active_per_year.1 c1Db
      ⟨2, 2025, ProductionStatus.draft⟩ ⟨1, 2025, ProductionStatus.active⟩
      (by decide) (by decide) (by decide) (by decide) (by decide)
  · exact c1_single_active_per_year.2 c1OkDb 3 ProductionStatus.planned
      (setStatusState c1OkDb 3 ProductionStatus.planned)
      (by decide) (by decide) rfl

/-- Two mine rows of a list with pairwise-distinct ids and the same id
are the same row. -/
theorem mineRow_id_inj {db : List MineRow}
    (hpw : db.Pairwise (fun a b => a.id ≠ b.id)) {a b : MineRow}
    (ha : a ∈ db) (hb : b ∈ db) (hid : a.id = b.id) : a = b := by
  by_contra hne
  have hsym : Symmetric (fun a b : MineRow => a.id ≠ b.id) :=
    fun x y hxy e => hxy e.symm
  exact hpw.forall hsym ha hb hne hid

/-- The soft-delete row update preserves every id. -/
theorem markMineDeleted_id (id : Nat) (now : Int) (u : Option Int) (m : MineRow) :
    (markMineDeleted id now u m).id = m.id := by
  unfold markMineDeleted
  split <;> rfl

/-- The soft-delete row update does not touch rows with a different id. -/
theorem markMineDeleted_ne {id : Nat} {now : Int} {u : Option Int} {m : MineRow}
    (h : m.id ≠ id) : markMineDeleted id now u m = m := by
  unfold markMineDeleted
  rw [if_neg (by simp [h])]

/-- The soft-delete row update on the targeted row: `deleted_at` and
`updated_at` stamped with the deletion time, `deleted_by` only when a
deleting user was given. -/
theorem markMineDeleted_eq {id : Nat} {now : Int} {u : Option Int} {m : MineRow}
    (h : m.id = id) :
    markMineDeleted id now u m =
      { m with updated_at := some now,
               deleted_at := some now,
               deleted_by := match u with
                 | some x => some x
                 | none => m.deleted_by } := by
  unfold markMineDeleted
  rw [if_pos (by simp [h])]

/-- The restore row update does not touch rows with a different id. -/
theorem clearMineDeleted_ne {id : Nat} {now : Int} {m : MineRow} (h : m.id ≠ id) :
    clearMineDeleted id now m = m := by
  unfold clearMineDeleted
  rw [if_neg (by simp [h])]

/-- The restore row update on the targeted row: deletion fields cleared,
`updated_at` stamped with the flush time. -/
theorem clearMineDeleted_eq {id : Nat} {now : Int} {m : MineRow} (h : m.id = id) :
    clearMineDeleted id now m =
      { m with updated_at := some now, deleted_at := none, deleted_by := none } := by
  unfold clearMineDeleted
  rw [if_pos (by simp [h])]

/-- C8 counterexample: soft-deleting mine 1 at time 5 (with original
`updated_at = some 10`) also rewrites `updated_at` to 5 via the column
`onupdate`, so the soft delete does not set only `deleted_at` and
`deleted_by`: the row that differs from the original only in those two
fields is not in the post-state. -/
theorem c8_counterexample :
    softDeleteMine c8Db c8Mine.id 5 (some 9) =
      Except.ok { mines := c8DelMines, products := c8Db.products } ∧
    { c8Mine with deleted_at := some 5, deleted_by := some 9 } ∉ c8DelMines ∧
    (markMineDeleted c8Mine.id 5 (some 9) c8Mine).updated_at ≠ c8Mine.updated_at := by
  refine ⟨rfl, by decide, by decide⟩

/-- C8 amended: soft-deleting a mine stamps its `deleted_at` (and
`deleted_by` when a deleting user is given) and — because the flush fires
the `updated_at` `onupdate` — its `updated_at`, changing nothing else;
every product row and every other mine row is unchanged, and the mine is
hidden from every listing whose filter does not ask for deleted rows;
restoring clears both deletion fields (again stamping `updated_at` with
the flush time), after which the mine reappears in the default listing. -/
theorem c8_soft_delete_restore (db : MineDb) (m : MineRow) (now rnow : Int)
    (u : Option Int) (hpw : db.mines.Pairwise (fun a b => a.id ≠ b.id))
    (hm : m ∈ db.mines) :
    ∃ db', softDeleteMine db m.id now u = Except.ok db' ∧
      db'.products = db.products ∧
      (∀ m' ∈ db.mines, m'.id ≠ m.id → m' ∈ db'.mines) ∧
      ({ m with updated_at := some now,
                deleted_at := some now,
                deleted_by := match u with
                  | some x => some x
                  | none => m.deleted_by } ∈ db'.mines) ∧
      (∀ f : MineFilter, f.include_deleted = false → f.only_deleted = false →
        ∀ r ∈ listMinesFiltered db' (some f), r.id ≠ m.id) ∧
      ∃ db'', restoreMine db' m.id rnow = Except.ok db'' ∧
        db''.products = db.products ∧
        ({ m with updated_at := some rnow, deleted_at := none, deleted_by := none }
          ∈ db''.mines) ∧
        (∀ m' ∈ db.mines, m'.id ≠ m.id → m' ∈ db''.mines) ∧
        { m with updated_at := some rnow, deleted_at := none, deleted_by := none } ∈
          listMinesFiltered db'' (some defaultMineFilter) := by
  cases hf : db.mines.find? (fun x => x.id == m.id) with
  | none =>
    exfalso
    have h0 := List.find?_eq_none.mp hf m hm
    simp at h0
  | some x =>
    have hdel : softDeleteMine db m.id now u =
        Except.ok { db with mines := db.mines.map (markMineDeleted m.id now u) } := by
      unfold softDeleteMine
      simp only [hf]
    refine ⟨_, hdel, rfl, ?_, ?_, ?_, ?_⟩
    · intro m' hm' hne
      rw [← @markMineDeleted_ne m.id now u m' hne]
      exact List.mem_map_of_mem _ hm'
    · have h1 := @markMineDeleted_eq m.id now u m rfl
      exact h1 ▸ List.mem_map_of_mem _ hm
    · intro f hincl honly r hrmem heq
      have hr := List.mem_filter.mp hrmem
      obtain ⟨s, hs, hfs⟩ := List.mem_map.mp hr.1
      have hsid : s.id = m.id := by
        rw [← heq, ← hfs, markMineDeleted_id]
      have hsm : s = m := mineRow_id_inj hpw hs hm hsid
      have hcond : deletedCond f r = true := by
        have h2 := hr.2
        unfold mineMatchesFilter at h2
        simp only [Bool.and_eq_true] at h2
        exact h2.1.1.1.1.1.1.1.1
      unfold deletedCond at hcond
      rw [if_neg (by simp [honly]), if_pos (by simp [hincl])] at hcond
      have hrda : r.deleted_at = some now := by
        rw [← hfs, hsm, markMineDeleted_eq rfl]
      rw [hrda] at hcond
      simp at hcond
    · have hmemDel : markMineDeleted m.id now u m ∈
          db.mines.map (markMineDeleted m.id now u) := List.mem_map_of_mem _ hm
      cases hf2 : (db.mines.map (markMineDeleted m.id now u)).find?
          (fun y => y.id == m.id) with
      | none =>
        exfalso
        have h0 := List.find?_eq_none.mp hf2 _ hmemDel
        simp [markMineDeleted_id] at h0
      | some y =>
        have hres : restoreMine
            { db with mines := db.mines.map (markMineDeleted m.id now u) } m.id rnow =
            Except.ok { db with mines :=
              (db.mines.map (markMineDeleted m.id now u)).map (clearMineDeleted m.id rnow) } := by
          unfold restoreMine
          simp only [hf2]
        refine ⟨_, hres, rfl, ?_, ?_, ?_⟩
        · have h1 : clearMineDeleted m.id rnow (markMineDeleted m.id now u m) =
              { m with updated_at := some rnow, deleted_at := none,
                       deleted_by := none } := by
            rw [markMineDeleted_eq rfl]
            unfold clearMineDeleted
            rw [if_pos (by simp)]
          exact h1 ▸ List.mem_map_of_mem _ hmemDel
        · intro m' hm' hne
          rw [← @clearMineDeleted_ne m.id rnow m' hne]
          apply List.mem_map_of_mem
          rw [← @markMineDeleted_ne m.id now u m' hne]
          exact List.mem_map_of_mem _ hm'
        · apply List.mem_filter.mpr
          constructor
          · have h1 : clearMineDeleted m.id rnow (markMineDeleted m.id now u m) =
                { m with updated_at := some rnow, deleted_at := none,
                         deleted_by := none } := by
              rw [markMineDeleted_eq rfl]
              unfold clearMineDeleted
              rw [if_pos (by simp)]
            exact h1 ▸ List.mem_map_of_mem _ hmemDel
          · rfl

/-- Witness for the amended C8: soft-delete mine 1 of the two-mine
database at time 5 by user 9, then restore it at time 6. -/
theorem c8_soft_delete_restore_witness :
    ∃ db', softDeleteMine c8Db c8Mine.id 5 (some 9) = Except.ok db' ∧
      db'.products = c8Db.products ∧
      (∀ m' ∈ c8Db.mines, m'.id ≠ c8Mine.id → m' ∈ db'.mines) ∧
      ({ c8Mine with updated_at := some 5,
                     deleted_at := some 5,
                     deleted_by := match (some 9 : Option Int) with
                       | some x => some x
                       | none => c8Mine.deleted_by } ∈ db'.mines) ∧
      (∀ f : MineFilter, f.include_deleted = false → f.only_deleted = false →
        ∀ r ∈ listMinesFiltered db' (some f), r.id ≠ c8Mine.id) ∧
      ∃ db'', restoreMine db' c8Mine.id 6 = Except.ok db'' ∧
        db''.products = c8Db.products ∧
        ({ c8Mine with updated_at := some 6, deleted_at := none, deleted_by := none }
          ∈ db''.mines) ∧
        (∀ m' ∈ c8Db.mines, m'.id ≠ c8Mine.id → m' ∈ db''.mines) ∧
        { c8Mine with updated_at := some 6, deleted_at := none, deleted_by := none } ∈
          listMinesFiltered db'' (some defaultMineFilter) :=
  c8_soft_delete_restore c8Db c8Mine 5 6 (some 9) (by decide) (by decide)

end ProjectSpec
